import Mathlib

/-!
Shallow embedding of the Dishcovery backend's account and recipe mutation
workflow (controllers/userController.js, controllers/recipeController.js,
models/User.js, models/Recipe.js, models/index.js), together with proofs
about the behaviour the specification describes.

The relational store is modelled as explicit lists of rows; each controller
becomes a pure function from a request and the database state to the new
state and an HTTP-status-like result.  JavaScript string falsiness
(`if (field)`) is modelled by `isTruthy` on `Option String`, where `none`
is `undefined` and `some ""` is the empty string.
-/

/-- HTTP error kinds used by the controllers: 400, 401, 403, 404, 409, 500. -/
inductive ApiErr where
  | badRequest
  | unauthorized
  | forbidden
  | notFound
  | conflict
  | serverError
deriving DecidableEq, Repr

/-- Row of the Users table (models/User.js): id, firstName, lastName, email,
password (stored hash), role. -/
structure User where
  id : Nat
  firstName : String
  lastName : String
  email : String
  password : String
  role : String
deriving DecidableEq, Repr

/-- Row of the Recipes table (models/Recipe.js).  `rating` is a FLOAT column
in the source; the claims only involve integral ratings, so it is modelled
as an integer.  `createdAt` is a timestamp modelled as a natural number. -/
structure Recipe where
  id : Nat
  name : String
  category : String
  cookingTime : Int
  prepTime : Int
  rating : Int
  description : String
  ingredients : List String
  instructions : List String
  image : String
  userId : Nat
  createdAt : Nat
deriving DecidableEq, Repr

/-- Row of the Favorites table (models/Favorite.js). -/
structure Fav where
  id : Nat
  userId : Nat
  recipeId : Nat
deriving DecidableEq, Repr

/-- The database state: the three tables the core touches. -/
structure Db where
  users : List User
  recipes : List Recipe
  favorites : List Fav
deriving DecidableEq, Repr

/-- JavaScript string truthiness: `undefined` and `""` are falsy, every other
string is truthy.  Used wherever a controller writes `if (field)`. -/
def isTruthy : Option String → Bool
  | none => false
  | some s => !(s == "")

/-- Modelled from the spec: the external password-hashing primitive
(bcryptjs), an external collaborator of the core ("persists user identity
and a salted password hash").  The hash of `pw` under a salt `salt` is an
opaque-looking string that records the salt (as a run of `*`) and determines
`pw`; it is injective in `pw` and never equal to any plaintext. -/
def bcryptHash (pw : String) (salt : Nat) : String :=
  ⟨'$' :: 'h' :: (List.replicate salt '*' ++ '$' :: pw.data)⟩

/-- Recover the salt recorded inside a hash string. -/
def saltOfHash (h : String) : Nat :=
  ((h.data.drop 2).takeWhile (fun c => c == '*')).length

/-- Modelled from the spec: bcrypt's compare re-hashes the attempt with the
salt stored in the hash and compares ("constant-time compare" against the
stored hash). -/
def bcryptCompare (attempt h : String) : Bool :=
  h == bcryptHash attempt (saltOfHash h)

theorem takeWhile_star_replicate (s : Nat) (p : List Char) :
    ((List.replicate s '*' ++ '$' :: p).takeWhile (fun c => c == '*'))
      = List.replicate s '*' := by
  induction s with
  | zero => simp [List.takeWhile]
  | succ n ih => simp [List.replicate_succ, List.takeWhile, ih]

theorem saltOfHash_bcryptHash (pw : String) (s : Nat) :
    saltOfHash (bcryptHash pw s) = s := by
  simp [saltOfHash, bcryptHash, takeWhile_star_replicate]

theorem bcryptHash_inj {a b : String} {s : Nat}
    (h : bcryptHash a s = bcryptHash b s) : a = b := by
  have hd := congrArg String.data h
  simp only [bcryptHash] at hd
  simp only [List.cons.injEq, true_and] at hd
  have h2 := List.append_cancel_left hd
  simp only [List.cons.injEq, true_and] at h2
  cases a; cases b; exact congrArg String.mk h2

theorem length_bcryptHash (pw : String) (s : Nat) :
    (bcryptHash pw s).length = pw.length + s + 3 := by
  simp only [bcryptHash, String.length, List.length_cons, List.length_append,
    List.length_replicate]
  omega

/-- A hash is never the plaintext it was derived from (nor any string of the
same length as the plaintext it hashes). -/
theorem bcryptHash_ne_plain (pw : String) (s : Nat) : bcryptHash pw s ≠ pw := by
  intro h
  have := congrArg String.length h
  rw [length_bcryptHash] at this
  omega

/-- Compare succeeds exactly on the hashed plaintext. -/
theorem bcryptCompare_eq_true_iff (a pw : String) (s : Nat) :
    bcryptCompare a (bcryptHash pw s) = true ↔ a = pw := by
  constructor
  · intro h
    rw [bcryptCompare, saltOfHash_bcryptHash] at h
    exact (bcryptHash_inj (beq_iff_eq.mp h)).symm
  · intro h
    subst h
    rw [bcryptCompare, saltOfHash_bcryptHash]
    exact beq_self_eq_true _

theorem bcryptCompare_ne (a pw : String) (s : Nat) (h : a ≠ pw) :
    bcryptCompare a (bcryptHash pw s) = false := by
  rw [Bool.eq_false_iff]
  intro hc
  exact h ((bcryptCompare_eq_true_iff a pw s).mp hc)

/-- Profile-update request body (PUT /api/users/me): each field is
`undefined` (`none`) or a string. -/
structure ProfileBody where
  firstName : Option String
  lastName : Option String
  email : Option String
deriving DecidableEq, Repr

/-- A character allowed by each class of the e-mail regex
`^[^\s@]+@[^\s@]+\.[^\s@]+$`: anything that is neither whitespace nor `@`. -/
def emailChar (c : Char) : Bool :=
  !c.isWhitespace && !(c == '@')

/-- The controller's e-mail syntax test, the anchored JavaScript regex
`^[^\s@]+@[^\s@]+\.[^\s@]+$`: a string matches exactly when it splits as
`local ++ "@" ++ rest` with `local` non-empty and `@`-free, both parts free
of whitespace and further `@`s, and `rest` containing a dot that is neither
its first nor its last character. -/
def emailRegexTest (e : String) : Bool :=
  let l := e.data.takeWhile (fun c => !(c == '@'))
  match e.data.dropWhile (fun c => !(c == '@')) with
  | [] => false
  | _ :: r =>
    !l.isEmpty && l.all emailChar && r.all emailChar
      && ((r.drop 1).dropLast.contains '.')

/-- JavaScript's `toLowerCase()` (ASCII case map, as used on e-mails). -/
def toLowerStr (s : String) : String :=
  ⟨s.data.map Char.toLower⟩

/-- JavaScript's `trim()`: strip leading and trailing whitespace. -/
def trimStr (s : String) : String :=
  ⟨((s.data.dropWhile Char.isWhitespace).reverse.dropWhile Char.isWhitespace).reverse⟩

/-- The controller's `email.toLowerCase().trim()` normalization. -/
def normEmail (e : String) : String :=
  trimStr (toLowerStr e)

/-- Sequelize's `user.update(updates)` on the single row with the given id. -/
def replaceUserById (db : Db) (uid : Nat) (u' : User) : Db :=
  { db with users := db.users.map (fun v => if v.id == uid then u' else v) }

/-- PUT /api/users/me (controllers/userController.js `updateProfile`):
requires at least one truthy field; trims names; validates e-mail syntax on
the raw value, then looks the lowercased-and-trimmed e-mail up and rejects
with Conflict when a different user holds it; applies only the provided
fields. -/
def updateProfile (db : Db) (uid : Nat) (b : ProfileBody) :
    Db × Except ApiErr User :=
  if !(isTruthy b.firstName) && !(isTruthy b.lastName) && !(isTruthy b.email) then
    (db, .error .badRequest)
  else
    match db.users.find? (fun u => u.id == uid) with
    | none => (db, .error .notFound)
    | some user =>
      let step1 :=
        if isTruthy b.firstName then
          { user with firstName := trimStr (b.firstName.getD "") }
        else user
      let step2 :=
        if isTruthy b.lastName then
          { step1 with lastName := trimStr (b.lastName.getD "") }
        else step1
      if isTruthy b.email then
        let e := b.email.getD ""
        if !(emailRegexTest e) then (db, .error .badRequest)
        else
          let ne := normEmail e
          match db.users.find? (fun u => u.email == ne) with
          | some ex =>
            if ex.id != uid then (db, .error .conflict)
            else
              let final := { step2 with email := ne }
              (replaceUserById db uid final, .ok final)
          | none =>
            let final := { step2 with email := ne }
            (replaceUserById db uid final, .ok final)
      else
        (replaceUserById db uid step2, .ok step2)

/-- Sequelize's beforeUpdate hook on User (models/User.js): when the
password attribute was changed, the new attribute value is hashed (again)
before the row is written. -/
def sequelizeUpdatePassword (u : User) (v : String) (hookSalt : Nat) : User :=
  if v == u.password then u
  else { u with password := bcryptHash v hookSalt }

/-- PUT /api/users/me/password (controllers/userController.js
`changePassword`): requires both passwords truthy and the new one at least
6 characters; verifies the old password against the stored hash; hashes the
new password and persists it through `user.update` — which runs the
beforeUpdate hook.  `s1` is the salt bcrypt draws in the controller, `s2`
the salt the hook draws. -/
def changePassword (db : Db) (uid : Nat) (oldPw newPw : Option String)
    (s1 s2 : Nat) : Db × Except ApiErr Unit :=
  if !(isTruthy oldPw) || !(isTruthy newPw) then (db, .error .badRequest)
  else if (newPw.getD "").length < 6 then (db, .error .badRequest)
  else
    match db.users.find? (fun u => u.id == uid) with
    | none => (db, .error .notFound)
    | some user =>
      if !(bcryptCompare (oldPw.getD "") user.password) then
        (db, .error .unauthorized)
      else
        let hashed := bcryptHash (newPw.getD "") s1
        let user' := sequelizeUpdatePassword user hashed s2
        (replaceUserById db uid user', .ok ())

/-- DELETE /api/users/me (controllers/userController.js `deleteAccount`),
the handler mounted by server.js via routes/userRoutes.js: verifies the
password, then issues three separate, untransacted deletions — the user's
Recipes first, then the user's Favorites, then the User row.  Each flag
says whether the corresponding destroy statement fails; a failing statement
deletes nothing and aborts the rest, but deletions already performed stay.
Deleting recipes cascades to favorites referencing them (models/index.js
`onDelete: "CASCADE"`). -/
def deleteAccount (db : Db) (uid : Nat) (pw : Option String)
    (failRecipes failFavorites failUser : Bool) : Db × Except ApiErr Unit :=
  if !(isTruthy pw) then (db, .error .badRequest)
  else
    match db.users.find? (fun u => u.id == uid) with
    | none => (db, .error .notFound)
    | some user =>
      if !(bcryptCompare (pw.getD "") user.password) then
        (db, .error .unauthorized)
      else if failRecipes then (db, .error .serverError)
      else
        let db1 : Db :=
          { db with
            recipes := db.recipes.filter (fun r => r.userId != uid),
            favorites := db.favorites.filter (fun f =>
              !(db.recipes.any (fun r => r.id == f.recipeId && r.userId == uid))) }
        if failFavorites then (db1, .error .serverError)
        else
          let db2 : Db :=
            { db1 with favorites := db1.favorites.filter (fun f => f.userId != uid) }
          if failUser then (db2, .error .serverError)
          else
            ({ db2 with users := db2.users.filter (fun u => u.id != uid) }, .ok ())

/-- The fixed placeholder image URL (controllers/recipeController.js). -/
def placeholderImage : String :=
  "https://res.cloudinary.com/dguseowoa/image/upload/v1762823979/amala_and_gbegiri_lkovb8.jpg"

/-- An ingredients/instructions field as it arrives at `createRecipe` after
`parseJSONField`: absent (`undefined`/null), present but not an array (a
string that failed to parse as a JSON array, or a non-array JSON value), or
an array of entries. -/
inductive ArrField where
  | undef
  | nonArr
  | arr (xs : List String)
deriving DecidableEq, Repr

/-- The validation `!f || !Array.isArray(f) || f.length === 0` accepts
exactly a non-empty array. -/
def ArrField.ok : ArrField → Bool
  | .arr (_ :: _) => true
  | _ => false

/-- Request body of POST /api/recipes.  Optional scalar fields are `none`
when absent, in which case the destructuring defaults of the controller
apply. -/
structure CreateBody where
  name : Option String
  category : Option String
  cookingTime : Option Int
  prepTime : Option Int
  rating : Option Int
  description : Option String
  ingredients : ArrField
  instructions : ArrField
deriving DecidableEq, Repr

/-- POST /api/recipes (controllers/recipeController.js `createRecipe`):
validates name / ingredients / instructions, uploads the image when one was
attached (`file`), falling back to the placeholder when the upload fails
(`upl = none`), then inserts the row with the documented defaults and
`userId` set to the caller. -/
def ArrField.args : ArrField → List String
  | .arr xs => xs
  | _ => []

def createRecipe (db : Db) (uid : Nat) (b : CreateBody) (file : Bool)
    (upl : Option String) (newId createdAt : Nat) : Db × Except ApiErr Recipe :=
  if trimStr (b.name.getD "") == "" then (db, .error .badRequest)
  else if !b.ingredients.ok then (db, .error .badRequest)
  else if !b.instructions.ok then (db, .error .badRequest)
  else
    let imageUrl := if file then upl.getD placeholderImage else placeholderImage
    let r : Recipe :=
      { id := newId,
        name := trimStr (b.name.getD ""),
        category := b.category.getD "Nigerian",
        cookingTime := b.cookingTime.getD 30,
        prepTime := b.prepTime.getD 10,
        rating := b.rating.getD 0,
        description := trimStr (b.description.getD ""),
        ingredients := b.ingredients.args,
        instructions := b.instructions.args,
        image := imageUrl,
        userId := uid,
        createdAt := createdAt }
    ({ db with recipes := r :: db.recipes }, .ok r)

/-- Request body of PUT /api/recipes/:id: a field is in the update exactly
when it is not `undefined` (note: unlike profile update, empty strings do
count here, since the controller tests `!== undefined`). -/
structure RecipeBody where
  name : Option String
  category : Option String
  cookingTime : Option Int
  prepTime : Option Int
  rating : Option Int
  description : Option String
  ingredients : Option (List String)
  instructions : Option (List String)
deriving DecidableEq, Repr

/-- Whether any of the eight allowed fields is present in the body. -/
def RecipeBody.anyField (b : RecipeBody) : Bool :=
  b.name.isSome || b.category.isSome || b.cookingTime.isSome || b.prepTime.isSome
    || b.rating.isSome || b.description.isSome || b.ingredients.isSome
    || b.instructions.isSome

/-- PUT /api/recipes/:id (controllers/recipeController.js `updateRecipe`):
404 when the recipe is absent, 403 when the caller (whatever their `role`)
is not the owner; collects the supplied fields plus the uploaded image URL
(upload failure contributes nothing); 400 when that collection is empty;
otherwise writes exactly the supplied fields. -/
def updateRecipe (db : Db) (uid : Nat) (_role : String) (rid : Nat)
    (b : RecipeBody) (file : Bool) (upl : Option String) :
    Db × Except ApiErr Recipe :=
  match db.recipes.find? (fun r => r.id == rid) with
  | none => (db, .error .notFound)
  | some r =>
    if r.userId != uid then (db, .error .forbidden)
    else
      let imgUpdate : Option String := if file then upl else none
      if !(b.anyField || imgUpdate.isSome) then (db, .error .badRequest)
      else
        let r' : Recipe :=
          { r with
            name := b.name.getD r.name,
            category := b.category.getD r.category,
            cookingTime := b.cookingTime.getD r.cookingTime,
            prepTime := b.prepTime.getD r.prepTime,
            rating := b.rating.getD r.rating,
            description := b.description.getD r.description,
            ingredients := b.ingredients.getD r.ingredients,
            instructions := b.instructions.getD r.instructions,
            image := imgUpdate.getD r.image }
        ({ db with recipes := db.recipes.map (fun x => if x.id == rid then r' else x) },
          .ok r')

/-- DELETE /api/recipes/:id (controllers/recipeController.js
`deleteRecipe`): 404 when absent, 403 when the caller (whatever their
`role`) is not the owner, otherwise removes the row; the deletion cascades
to favorites referencing the recipe. -/
def deleteRecipe (db : Db) (uid : Nat) (_role : String) (rid : Nat) :
    Db × Except ApiErr Unit :=
  match db.recipes.find? (fun r => r.id == rid) with
  | none => (db, .error .notFound)
  | some r =>
    if r.userId != uid then (db, .error .forbidden)
    else
      ({ db with
          recipes := db.recipes.filter (fun x => x.id != rid),
          favorites := db.favorites.filter (fun f => f.recipeId != rid) },
        .ok ())

/-- Query of GET /api/recipes, already through `parseInt`; `page` and
`limit` carry the destructuring defaults 1 and 20 when absent. -/
structure RecipeQuery where
  q : Option String
  category : Option String
  minRating : Option Int
  maxCookingTime : Option Int
  page : Nat
  limit : Nat
deriving DecidableEq, Repr

/-- Whether `pat` is an initial segment of `s`. -/
def startsWithChars : List Char → List Char → Bool
  | [], _ => true
  | _ :: _, [] => false
  | a :: as, b :: bs => a == b && startsWithChars as bs

/-- Whether `pat` occurs contiguously somewhere in `s`. -/
def hasSubstrChars (pat : List Char) : List Char → Bool
  | [] => pat.isEmpty
  | c :: rest => startsWithChars pat (c :: rest) || hasSubstrChars pat rest

/-- Case-insensitive substring test (`ILIKE '%pat%'`). -/
def containsCI (s pat : String) : Bool :=
  hasSubstrChars pat.toLower.data s.toLower.data

/-- The WHERE clause built by `getAllRecipes`: exact category, minimum
rating, maximum cooking time, and the free-text OR over name and
description. -/
def recipeMatches (qry : RecipeQuery) (r : Recipe) : Bool :=
  (match qry.category with | none => true | some c => r.category == c)
    && (match qry.minRating with | none => true | some m => decide (m ≤ r.rating))
    && (match qry.maxCookingTime with | none => true | some m => decide (r.cookingTime ≤ m))
    && (match qry.q with
        | none => true
        | some q => containsCI r.name q || containsCI r.description q)

/-- The recipe ordering of the listing: newest first. -/
def newestFirst (a b : Recipe) : Prop := b.createdAt ≤ a.createdAt

instance : DecidableRel newestFirst := fun a b => Nat.decLe b.createdAt a.createdAt

instance : IsTotal Recipe newestFirst := ⟨fun a b => le_total b.createdAt a.createdAt⟩

instance : IsTrans Recipe newestFirst := ⟨fun _ _ _ hab hbc => le_trans hbc hab⟩

/-- `ORDER BY "createdAt" DESC` as a deterministic sort. -/
def sortByCreatedDesc (rs : List Recipe) : List Recipe :=
  List.insertionSort newestFirst rs

/-- Response shape of GET /api/recipes. -/
structure ListResult where
  recipes : List Recipe
  currentPage : Nat
  totalPages : Nat
  totalRecipes : Nat
  limit : Nat
deriving DecidableEq, Repr

/-- GET /api/recipes (controllers/recipeController.js `getAllRecipes`):
filters, orders newest first, takes the 1-indexed page of size `limit` at
offset `(page-1)*limit`, and reports the total match count and
`Math.ceil(total / limit)` pages. -/
def getAllRecipes (db : Db) (qry : RecipeQuery) : ListResult :=
  let matching := db.recipes.filter (recipeMatches qry)
  let sorted := sortByCreatedDesc matching
  let off := (qry.page - 1) * qry.limit
  { recipes := (sorted.drop off).take qry.limit,
    currentPage := qry.page,
    totalPages := (matching.length + qry.limit - 1) / qry.limit,
    totalRecipes := matching.length,
    limit := qry.limit }

/-! ### Fixtures used by concrete evaluations -/

def userAda : User :=
  { id := 1, firstName := "Ada", lastName := "Okafor", email := "ada@dish.io",
    password := bcryptHash "secret" 5, role := "user" }

def userBola : User :=
  { id := 2, firstName := "Bola", lastName := "Ade", email := "bola@dish.io",
    password := bcryptHash "other" 4, role := "user" }

def recJollof : Recipe :=
  { id := 10, name := "Jollof", category := "Nigerian", cookingTime := 30,
    prepTime := 10, rating := 0, description := "", ingredients := ["rice"],
    instructions := ["cook"], image := placeholderImage, userId := 1,
    createdAt := 100 }

def recAmala : Recipe :=
  { id := 20, name := "Amala", category := "Nigerian", cookingTime := 30,
    prepTime := 10, rating := 0, description := "", ingredients := ["yam"],
    instructions := ["stir"], image := placeholderImage, userId := 2,
    createdAt := 200 }

/-- Ada favorites Bola's recipe, so this row is untouched by the cascade of
Ada's own recipes. -/
def favAda : Fav := { id := 1, userId := 1, recipeId := 20 }

def dbTwo : Db :=
  { users := [userAda, userBola], recipes := [recJollof, recAmala],
    favorites := [favAda] }

/-- C1: the DELETE /api/users/me handler that server.js actually mounts
(controllers/userController.js via routes/userRoutes.js) is NOT the
atomic Favorites → Recipes → User cascade the claim describes: it deletes
the user's Recipes first, then Favorites, then the User row, as three
separate statements with no transaction.  Concretely, with a correct
password and a failure in the Favorites-deletion step, the call errors out
having already deleted Ada's recipe while her user row and favorite remain
— a partial deletion the claim says cannot happen.  (The unmounted raw-SQL
handler in routes/users.js is the one that matches the claim.) -/
theorem deleteAccount_partial_deletion :
    deleteAccount dbTwo 1 (some "secret") false true false
      = ({ users := [userAda, userBola], recipes := [recAmala],
           favorites := [favAda] }, Except.error ApiErr.serverError)
    ∧ dbTwo.recipes = [recJollof, recAmala] :=
  ⟨rfl, rfl⟩

/-- C2: a DeleteAccount call whose (non-empty) password fails verification
against the stored hash returns Unauthorized and leaves the database state
exactly as it was. -/
theorem deleteAccount_wrong_password (db : Db) (uid : Nat) (pw : String)
    (u : User) (fr ff fu : Bool)
    (hpw : pw ≠ "")
    (hfind : db.users.find? (fun v => v.id == uid) = some u)
    (hcmp : bcryptCompare pw u.password = false) :
    deleteAccount db uid (some pw) fr ff fu
      = (db, Except.error ApiErr.unauthorized) := by
  simp [deleteAccount, isTruthy, hpw, hfind, hcmp]

/-- Witness for C2 at a concrete database and password. -/
theorem deleteAccount_wrong_password_witness :
    ("wrong" ≠ ""
      ∧ dbTwo.users.find? (fun v => v.id == 1) = some userAda
      ∧ bcryptCompare "wrong" userAda.password = false)
    ∧ deleteAccount dbTwo 1 (some "wrong") true true true
        = (dbTwo, Except.error ApiErr.unauthorized) :=
  ⟨⟨by decide, rfl, rfl⟩,
    deleteAccount_wrong_password dbTwo 1 "wrong" userAda true true true
      (by decide) rfl rfl⟩

/-- C4: ChangePassword double-hashes.  The controller hashes the new
password and persists it through `user.update`, but the `beforeUpdate` hook
of models/User.js sees the password attribute changed and hashes the
already-hashed string again, so the stored value is
`hash(hash(newPassword))` — and verifying `newPassword` against the stored
value then FAILS (while it would succeed against the single hash the claim
and the spec describe). -/
theorem changePassword_double_hashes :
    changePassword { users := [userAda], recipes := [], favorites := [] }
        1 (some "secret") (some "newpass99") 7 8
      = ({ users := [{ userAda with
              password := bcryptHash (bcryptHash "newpass99" 7) 8 }],
           recipes := [], favorites := [] }, Except.ok ())
    ∧ bcryptCompare "newpass99" (bcryptHash (bcryptHash "newpass99" 7) 8) = false
    ∧ bcryptCompare "newpass99" (bcryptHash "newpass99" 7) = true
    ∧ bcryptHash (bcryptHash "newpass99" 7) 8 ≠ "newpass99" :=
  ⟨rfl, rfl, rfl, by decide⟩

/-- C3: for UpdateRecipe and DeleteRecipe, a recipe owned by someone other
than the caller yields Forbidden — whatever the caller's role, admin
included — with the database unchanged, and a missing recipe yields
NotFound. -/
theorem recipe_ownership_enforced (db : Db) (uid : Nat) (role : String)
    (rid : Nat) (b : RecipeBody) (file : Bool) (upl : Option String) :
    (∀ r, db.recipes.find? (fun x => x.id == rid) = some r → r.userId ≠ uid →
      updateRecipe db uid role rid b file upl = (db, Except.error ApiErr.forbidden)
        ∧ deleteRecipe db uid role rid = (db, Except.error ApiErr.forbidden))
    ∧ (db.recipes.find? (fun x => x.id == rid) = none →
      updateRecipe db uid role rid b file upl = (db, Except.error ApiErr.notFound)
        ∧ deleteRecipe db uid role rid = (db, Except.error ApiErr.notFound)) := by
  constructor
  · intro r hfind howner
    constructor
    · simp [updateRecipe, hfind, howner]
    · simp [deleteRecipe, hfind, howner]
  · intro hfind
    constructor
    · simp [updateRecipe, hfind]
    · simp [deleteRecipe, hfind]

/-- Witness for C3: an admin-role caller (id 1) against Bola's recipe
(id 20, owner 2), and a missing recipe id 99. -/
theorem recipe_ownership_enforced_witness :
    (dbTwo.recipes.find? (fun x => x.id == 20) = some recAmala
      ∧ recAmala.userId ≠ 1
      ∧ dbTwo.recipes.find? (fun x => x.id == 99) = none)
    ∧ (updateRecipe dbTwo 1 "admin" 20 ⟨some "X", none, none, none, none, none, none, none⟩ false none
        = (dbTwo, Except.error ApiErr.forbidden)
      ∧ deleteRecipe dbTwo 1 "admin" 20 = (dbTwo, Except.error ApiErr.forbidden))
    ∧ (updateRecipe dbTwo 1 "admin" 99 ⟨some "X", none, none, none, none, none, none, none⟩ false none
        = (dbTwo, Except.error ApiErr.notFound)
      ∧ deleteRecipe dbTwo 1 "admin" 99 = (dbTwo, Except.error ApiErr.notFound)) :=
  ⟨⟨rfl, by decide, rfl⟩,
    (recipe_ownership_enforced dbTwo 1 "admin" 20
      ⟨some "X", none, none, none, none, none, none, none⟩ false none).1
      recAmala rfl (by decide),
    (recipe_ownership_enforced dbTwo 1 "admin" 99
      ⟨some "X", none, none, none, none, none, none, none⟩ false none).2 rfl⟩

/-- C9: no Recipe Service operation reassigns a recipe's owner.  An
UpdateRecipe call never changes the table's length, and every row after the
call keeps the id and userId of a row that was already there; after a
DeleteRecipe call every remaining row was already present beforehand. -/
theorem updateRecipe_owner_immutable (db : Db) (uid : Nat) (role : String)
    (rid : Nat) (b : RecipeBody) (file : Bool) (upl : Option String) :
    ((updateRecipe db uid role rid b file upl).1.recipes.length = db.recipes.length)
    ∧ (∀ r', r' ∈ (updateRecipe db uid role rid b file upl).1.recipes →
        ∃ r0, r0 ∈ db.recipes ∧ r'.id = r0.id ∧ r'.userId = r0.userId)
    ∧ (∀ r, r ∈ (deleteRecipe db uid role rid).1.recipes → r ∈ db.recipes) := by
  refine ⟨?_, ?_, ?_⟩
  · unfold updateRecipe
    split
    · rfl
    · split
      · rfl
      · split
        · dsimp only
          split
          · rfl
          · simp
        · dsimp only
          split
          · rfl
          · simp
  · intro r' hr'
    unfold updateRecipe at hr'
    split at hr'
    · exact ⟨r', hr', rfl, rfl⟩
    case _ r hfind =>
      split at hr'
      · exact ⟨r', hr', rfl, rfl⟩
      · split at hr'
        · dsimp only at hr'
          split at hr'
          · exact ⟨r', hr', rfl, rfl⟩
          · obtain ⟨x, hx, hfx⟩ := List.mem_map.mp hr'
            by_cases hx2 : (x.id == rid) = true
            · rw [if_pos hx2] at hfx
              subst hfx
              exact ⟨r, List.mem_of_find?_eq_some hfind, rfl, rfl⟩
            · rw [if_neg hx2] at hfx
              subst hfx
              exact ⟨x, hx, rfl, rfl⟩
        · dsimp only at hr'
          split at hr'
          · exact ⟨r', hr', rfl, rfl⟩
          · obtain ⟨x, hx, hfx⟩ := List.mem_map.mp hr'
            by_cases hx2 : (x.id == rid) = true
            · rw [if_pos hx2] at hfx
              subst hfx
              exact ⟨r, List.mem_of_find?_eq_some hfind, rfl, rfl⟩
            · rw [if_neg hx2] at hfx
              subst hfx
              exact ⟨x, hx, rfl, rfl⟩
  · intro r hr
    unfold deleteRecipe at hr
    split at hr
    · exact hr
    · split at hr
      · exact hr
      · exact List.mem_of_mem_filter hr

/-- Witness for C9 at a concrete update that changes every updatable field
and uploads a new image. -/
theorem updateRecipe_owner_immutable_witness :
    ((updateRecipe dbTwo 1 "user" 10
        ⟨some "New", some "Soup", some 5, some 5, some 4, some "d", some ["a"], some ["b"]⟩
        true (some "http://img")).1.recipes.length = dbTwo.recipes.length)
    ∧ (∀ r', r' ∈ (updateRecipe dbTwo 1 "user" 10
        ⟨some "New", some "Soup", some 5, some 5, some 4, some "d", some ["a"], some ["b"]⟩
        true (some "http://img")).1.recipes →
        ∃ r0, r0 ∈ dbTwo.recipes ∧ r'.id = r0.id ∧ r'.userId = r0.userId)
    ∧ (∀ r, r ∈ (deleteRecipe dbTwo 1 "user" 10).1.recipes → r ∈ dbTwo.recipes) :=
  updateRecipe_owner_immutable dbTwo 1 "user" 10
    ⟨some "New", some "Soup", some 5, some 5, some 4, some "d", some ["a"], some ["b"]⟩
    true (some "http://img")

/-- C10: UpdateProfile treats an empty-string field exactly like an absent
field (JavaScript falsiness): substituting `""` for `undefined` in any
field never changes the outcome, and a request in which every supplied
field is the empty string fails with InvalidInput just like an empty
request. -/
theorem updateProfile_empty_is_absent (db : Db) (uid : Nat) (b : ProfileBody) :
    (updateProfile db uid ⟨some "", some "", some ""⟩
        = updateProfile db uid ⟨none, none, none⟩
      ∧ updateProfile db uid ⟨some "", some "", some ""⟩
        = (db, Except.error ApiErr.badRequest))
    ∧ updateProfile db uid { b with firstName := some "" }
        = updateProfile db uid { b with firstName := none }
    ∧ updateProfile db uid { b with lastName := some "" }
        = updateProfile db uid { b with lastName := none }
    ∧ updateProfile db uid { b with email := some "" }
        = updateProfile db uid { b with email := none } := by
  obtain ⟨f, l, e⟩ := b
  exact ⟨⟨rfl, rfl⟩, rfl, rfl, rfl⟩

/-- C5: UpdateProfile's field and e-mail rules.  With no field it is
InvalidInput; a syntactically invalid e-mail is InvalidInput; an e-mail
held by a different existing user is Conflict; an e-mail whose normalized
form resolves to the caller themselves succeeds — the uniqueness check
excludes the caller — and a stored e-mail is always the lowercased,
trimmed form of the input. -/
theorem updateProfile_email_rules (db : Db) (uid : Nat) :
    (updateProfile db uid ⟨none, none, none⟩ = (db, Except.error ApiErr.badRequest))
    ∧ (∀ e u, db.users.find? (fun v => v.id == uid) = some u → e ≠ "" →
        emailRegexTest e = false →
        updateProfile db uid ⟨none, none, some e⟩ = (db, Except.error ApiErr.badRequest))
    ∧ (∀ e u ex, db.users.find? (fun v => v.id == uid) = some u → e ≠ "" →
        emailRegexTest e = true →
        db.users.find? (fun v => v.email == normEmail e) = some ex → ex.id ≠ uid →
        updateProfile db uid ⟨none, none, some e⟩ = (db, Except.error ApiErr.conflict))
    ∧ (∀ u ex, db.users.find? (fun v => v.id == uid) = some u → u.email ≠ "" →
        emailRegexTest u.email = true →
        db.users.find? (fun v => v.email == normEmail u.email) = some ex → ex.id = uid →
        updateProfile db uid ⟨none, none, some u.email⟩
          = (replaceUserById db uid { u with email := normEmail u.email },
             Except.ok { u with email := normEmail u.email }))
    ∧ (∀ e u, db.users.find? (fun v => v.id == uid) = some u → e ≠ "" →
        emailRegexTest e = true →
        db.users.find? (fun v => v.email == normEmail e) = none →
        updateProfile db uid ⟨none, none, some e⟩
          = (replaceUserById db uid { u with email := normEmail e },
             Except.ok { u with email := normEmail e })) := by
  refine ⟨rfl, ?_, ?_, ?_, ?_⟩
  · intro e u hfind hne hreg
    simp [updateProfile, isTruthy, hne, hfind, hreg]
  · intro e u ex hfind hne hreg hmail hex
    simp [updateProfile, isTruthy, hne, hfind, hreg, hmail, hex]
  · intro u ex hfind hne hreg hmail hex
    simp [updateProfile, isTruthy, hne, hfind, hreg, hmail, hex]
  · intro e u hfind hne hreg hmail
    simp [updateProfile, isTruthy, hne, hfind, hreg, hmail]

/-- Concrete database for the C5 witness: Ada (id 1) holds a@dish.io,
Bola (id 2) holds bola@dish.io. -/
def userAdaPlain : User :=
  { id := 1, firstName := "Ada", lastName := "Okafor", email := "a@dish.io",
    password := bcryptHash "secret" 5, role := "user" }

def dbMail : Db := { users := [userAdaPlain, userBola], recipes := [], favorites := [] }

/-- Witness for C5: every rule instantiated on `dbMail` for caller 1. -/
theorem updateProfile_email_rules_witness :
    (updateProfile dbMail 1 ⟨none, none, none⟩ = (dbMail, Except.error ApiErr.badRequest))
    ∧ (emailRegexTest "not-an-email" = false
      ∧ updateProfile dbMail 1 ⟨none, none, some "not-an-email"⟩
          = (dbMail, Except.error ApiErr.badRequest))
    ∧ (emailRegexTest "Bola@dish.io" = true
      ∧ updateProfile dbMail 1 ⟨none, none, some "Bola@dish.io"⟩
          = (dbMail, Except.error ApiErr.conflict))
    ∧ (updateProfile dbMail 1 ⟨none, none, some "a@dish.io"⟩
        = (replaceUserById dbMail 1 { userAdaPlain with email := "a@dish.io" },
           Except.ok { userAdaPlain with email := "a@dish.io" })) := by
  refine ⟨(updateProfile_email_rules dbMail 1).1, ⟨by decide, ?_⟩, ⟨by decide, ?_⟩, ?_⟩
  · exact (updateProfile_email_rules dbMail 1).2.1 "not-an-email" userAdaPlain rfl
      (by decide) (by decide)
  · exact (updateProfile_email_rules dbMail 1).2.2.1 "Bola@dish.io" userAdaPlain userBola rfl
      (by decide) (by decide) (by decide) (by decide)
  · exact (updateProfile_email_rules dbMail 1).2.2.2.1 userAdaPlain userAdaPlain rfl
      (by decide) (by decide) (by decide) rfl

/-- C6: CreateRecipe fails with InvalidInput whenever the trimmed name is
empty or ingredients/instructions are missing, not an array, or empty; and
a call with a non-blank name, one ingredient, one instruction and no image
succeeds, persisting the placeholder image, the documented defaults
(category "Nigerian", cookingTime 30, prepTime 10, rating 0, empty
description) and owner = caller. -/
theorem createRecipe_validation_and_defaults (db : Db) (uid : Nat)
    (b : CreateBody) (file : Bool) (upl : Option String) (newId t : Nat) :
    ((trimStr (b.name.getD "") = "" ∨ b.ingredients.ok = false
        ∨ b.instructions.ok = false) →
      createRecipe db uid b file upl newId t = (db, Except.error ApiErr.badRequest))
    ∧ (∀ nm ing ins, trimStr nm ≠ "" →
        createRecipe db uid
            ⟨some nm, none, none, none, none, none, ArrField.arr [ing], ArrField.arr [ins]⟩
            false none newId t
          = ({ db with recipes :=
                { id := newId, name := trimStr nm, category := "Nigerian",
                  cookingTime := 30, prepTime := 10, rating := 0, description := "",
                  ingredients := [ing], instructions := [ins],
                  image := placeholderImage, userId := uid, createdAt := t }
                :: db.recipes },
              Except.ok
                { id := newId, name := trimStr nm, category := "Nigerian",
                  cookingTime := 30, prepTime := 10, rating := 0, description := "",
                  ingredients := [ing], instructions := [ins],
                  image := placeholderImage, userId := uid, createdAt := t })) := by
  constructor
  · intro h
    by_cases h1 : (trimStr (b.name.getD "") == "") = true
    · simp [createRecipe, h1]
    · by_cases h2 : b.ingredients.ok = true
      · by_cases h3 : b.instructions.ok = true
        · exfalso
          rcases h with h | h | h
          · exact h1 (by simp [h])
          · rw [h2] at h; cases h
          · rw [h3] at h; cases h
        · simp [createRecipe, h1, h2, Bool.eq_false_iff.mpr h3]
      · simp [createRecipe, h1, Bool.eq_false_iff.mpr h2]
  · intro nm ing ins hnm
    have h1 : (trimStr nm == "") = false := by
      simpa using hnm
    simp only [createRecipe, Option.getD_some, h1, Bool.false_eq_true, if_false,
      ArrField.ok, Bool.not_true, ArrField.args]
    rfl

/-- Witness for C6: an empty ingredients array is rejected; the minimal
valid call succeeds with the placeholder image and all defaults. -/
theorem createRecipe_validation_witness :
    (ArrField.ok (ArrField.arr []) = false
      ∧ createRecipe dbTwo 1
          ⟨some "Eba", none, none, none, none, none, ArrField.arr [], ArrField.arr ["mix"]⟩
          false none 30 300
        = (dbTwo, Except.error ApiErr.badRequest))
    ∧ (trimStr "Eba" ≠ ""
      ∧ createRecipe dbTwo 1
          ⟨some "Eba", none, none, none, none, none, ArrField.arr ["garri"], ArrField.arr ["mix"]⟩
          false none 30 300
        = ({ dbTwo with recipes :=
              { id := 30, name := trimStr "Eba", category := "Nigerian",
                cookingTime := 30, prepTime := 10, rating := 0, description := "",
                ingredients := ["garri"], instructions := ["mix"],
                image := placeholderImage, userId := 1, createdAt := 300 }
              :: dbTwo.recipes },
            Except.ok
              { id := 30, name := trimStr "Eba", category := "Nigerian",
                cookingTime := 30, prepTime := 10, rating := 0, description := "",
                ingredients := ["garri"], instructions := ["mix"],
                image := placeholderImage, userId := 1, createdAt := 300 })) :=
  ⟨⟨rfl,
    (createRecipe_validation_and_defaults dbTwo 1
      ⟨some "Eba", none, none, none, none, none, ArrField.arr [], ArrField.arr ["mix"]⟩
      false none 30 300).1 (Or.inr (Or.inl rfl))⟩,
   ⟨by decide,
    (createRecipe_validation_and_defaults dbTwo 1
      ⟨some "Eba", none, none, none, none, none, ArrField.arr ["garri"], ArrField.arr ["mix"]⟩
      false none 30 300).2 "Eba" "garri" "mix" (by decide)⟩⟩

/-- C7: a Media-Uploader failure is non-fatal.  A CreateRecipe or
UpdateRecipe call whose upload fails (`upl = none`) behaves exactly like
the same call without an image; in particular a valid creation still
succeeds with the placeholder image, and an update with at least one other
field still applies every supplied field while the image stays unchanged. -/
theorem upload_failure_nonfatal (db : Db) (uid : Nat) (role : String)
    (rid : Nat) (newId t : Nat) :
    (∀ b : CreateBody,
      createRecipe db uid b true none newId t = createRecipe db uid b false none newId t)
    ∧ (∀ bod : RecipeBody,
      updateRecipe db uid role rid bod true none = updateRecipe db uid role rid bod false none)
    ∧ (∀ b : CreateBody, trimStr (b.name.getD "") ≠ "" → b.ingredients.ok = true →
        b.instructions.ok = true →
        ∃ r, createRecipe db uid b true none newId t
            = ({ db with recipes := r :: db.recipes }, Except.ok r)
          ∧ r.image = placeholderImage)
    ∧ (∀ (bod : RecipeBody) (r : Recipe),
        db.recipes.find? (fun x => x.id == rid) = some r → (r.userId != uid) = false →
        bod.name.isSome = true →
        ∃ r', updateRecipe db uid role rid bod true none
            = ({ db with recipes := db.recipes.map (fun x => if x.id == rid then r' else x) },
               Except.ok r')
          ∧ r'.image = r.image
          ∧ r'.name = bod.name.getD r.name
          ∧ r'.category = bod.category.getD r.category
          ∧ r'.cookingTime = bod.cookingTime.getD r.cookingTime
          ∧ r'.prepTime = bod.prepTime.getD r.prepTime
          ∧ r'.rating = bod.rating.getD r.rating
          ∧ r'.description = bod.description.getD r.description
          ∧ r'.ingredients = bod.ingredients.getD r.ingredients
          ∧ r'.instructions = bod.instructions.getD r.instructions
          ∧ r'.userId = r.userId) := by
  refine ⟨fun b => rfl, fun bod => rfl, ?_, ?_⟩
  · intro b hnm hing hins
    have h1 : (trimStr (b.name.getD "") == "") = false := by simpa using hnm
    refine ⟨{ id := newId, name := trimStr (b.name.getD ""),
              category := b.category.getD "Nigerian",
              cookingTime := b.cookingTime.getD 30,
              prepTime := b.prepTime.getD 10, rating := b.rating.getD 0,
              description := trimStr (b.description.getD ""),
              ingredients := b.ingredients.args,
              instructions := b.instructions.args,
              image := placeholderImage, userId := uid, createdAt := t },
      ?_, rfl⟩
    simp [createRecipe, h1, hing, hins]
  · intro bod r hfind howner hname
    have hA : bod.anyField = true := by
      cases hn : bod.name with
      | none => rw [hn] at hname; cases hname
      | some v => simp [RecipeBody.anyField, hn]
    refine ⟨{ r with
              name := bod.name.getD r.name,
              category := bod.category.getD r.category,
              cookingTime := bod.cookingTime.getD r.cookingTime,
              prepTime := bod.prepTime.getD r.prepTime,
              rating := bod.rating.getD r.rating,
              description := bod.description.getD r.description,
              ingredients := bod.ingredients.getD r.ingredients,
              instructions := bod.instructions.getD r.instructions },
      ?_, rfl, rfl, rfl, rfl, rfl, rfl, rfl, rfl, rfl, rfl⟩
    simp [updateRecipe, hfind, howner, hA]

/-- Witness for C7: creation with a failed upload still succeeds with the
placeholder; an update of Jollof's name with a failed upload applies the
name and keeps the image. -/
theorem upload_failure_nonfatal_witness :
    (trimStr "Eba" ≠ "" ∧ ArrField.ok (ArrField.arr ["garri"]) = true
      ∧ dbTwo.recipes.find? (fun x => x.id == 10) = some recJollof
      ∧ (recJollof.userId != 1) = false
      ∧ (some "Better Jollof" : Option String).isSome = true)
    ∧ (∃ r, createRecipe dbTwo 1
          ⟨some "Eba", none, none, none, none, none, ArrField.arr ["garri"], ArrField.arr ["mix"]⟩
          true none 31 301
        = ({ dbTwo with recipes := r :: dbTwo.recipes }, Except.ok r)
        ∧ r.image = placeholderImage)
    ∧ (∃ r', updateRecipe dbTwo 1 "user" 10
          ⟨some "Better Jollof", none, none, none, none, none, none, none⟩ true none
        = ({ dbTwo with recipes := dbTwo.recipes.map (fun x => if x.id == 10 then r' else x) },
           Except.ok r')
        ∧ r'.image = recJollof.image
        ∧ r'.name = (some "Better Jollof" : Option String).getD recJollof.name
        ∧ r'.category = (none : Option String).getD recJollof.category
        ∧ r'.cookingTime = (none : Option Int).getD recJollof.cookingTime
        ∧ r'.prepTime = (none : Option Int).getD recJollof.prepTime
        ∧ r'.rating = (none : Option Int).getD recJollof.rating
        ∧ r'.description = (none : Option String).getD recJollof.description
        ∧ r'.ingredients = (none : Option (List String)).getD recJollof.ingredients
        ∧ r'.instructions = (none : Option (List String)).getD recJollof.instructions
        ∧ r'.userId = recJollof.userId) :=
  ⟨⟨by decide, rfl, rfl, rfl, rfl⟩,
   (upload_failure_nonfatal dbTwo 1 "user" 10 31 301).2.2.1
     ⟨some "Eba", none, none, none, none, none, ArrField.arr ["garri"], ArrField.arr ["mix"]⟩
     (by decide) rfl rfl,
   (upload_failure_nonfatal dbTwo 1 "user" 10 31 301).2.2.2
     ⟨some "Better Jollof", none, none, none, none, none, none, none⟩ recJollof rfl rfl rfl⟩

/-- Bounds pinning `(n + m - 1) / m` down as the ceiling of `n / m`. -/
theorem ceil_div_bounds (n m : Nat) (hm : 0 < m) :
    n ≤ m * ((n + m - 1) / m) ∧ m * ((n + m - 1) / m) < n + m := by
  have hd := Nat.div_add_mod (n + m - 1) m
  have hr : (n + m - 1) % m < m := Nat.mod_lt _ hm
  generalize m * ((n + m - 1) / m) = X at hd ⊢
  omega

/-- C8: ListRecipes pagination.  The listing reports the full match count;
`totalPages` is the least page count covering every match
(`ceil(totalRecipes / limit)`, characterised by the two product bounds);
the page holds `min limit (totalRecipes - (page-1)*limit)` items; item `i`
of the page is element `(page-1)*limit + i` of the matches ordered newest
first; the page itself is ordered newest first; and the ordered list is a
permutation of the matches. -/
theorem getAllRecipes_pagination (db : Db) (qry : RecipeQuery) (hl : 0 < qry.limit) :
    (getAllRecipes db qry).totalRecipes = (db.recipes.filter (recipeMatches qry)).length
    ∧ (getAllRecipes db qry).totalRecipes ≤ qry.limit * (getAllRecipes db qry).totalPages
    ∧ qry.limit * (getAllRecipes db qry).totalPages
        < (getAllRecipes db qry).totalRecipes + qry.limit
    ∧ (getAllRecipes db qry).recipes.length
        = min qry.limit ((getAllRecipes db qry).totalRecipes - (qry.page - 1) * qry.limit)
    ∧ (∀ i, i < qry.limit →
        (getAllRecipes db qry).recipes[i]?
          = (sortByCreatedDesc (db.recipes.filter (recipeMatches qry)))[(qry.page - 1) * qry.limit + i]?)
    ∧ List.Sorted newestFirst (getAllRecipes db qry).recipes
    ∧ (sortByCreatedDesc (db.recipes.filter (recipeMatches qry))).Perm
        (db.recipes.filter (recipeMatches qry)) := by
  have hnm := ceil_div_bounds (db.recipes.filter (recipeMatches qry)).length qry.limit hl
  have hlen : (sortByCreatedDesc (db.recipes.filter (recipeMatches qry))).length
      = (db.recipes.filter (recipeMatches qry)).length :=
    (List.perm_insertionSort newestFirst _).length_eq
  refine ⟨rfl, hnm.1, hnm.2, ?_, ?_, ?_, List.perm_insertionSort newestFirst _⟩
  · show (((sortByCreatedDesc (db.recipes.filter (recipeMatches qry))).drop
        ((qry.page - 1) * qry.limit)).take qry.limit).length = _
    rw [List.length_take, List.length_drop, hlen]
    rfl
  · intro i hi
    show (((sortByCreatedDesc (db.recipes.filter (recipeMatches qry))).drop
        ((qry.page - 1) * qry.limit)).take qry.limit)[i]? = _
    rw [List.getElem?_take_of_lt hi, List.getElem?_drop]
  · show List.Sorted newestFirst
      (((sortByCreatedDesc (db.recipes.filter (recipeMatches qry))).drop
        ((qry.page - 1) * qry.limit)).take qry.limit)
    have hs : List.Sorted newestFirst (sortByCreatedDesc (db.recipes.filter (recipeMatches qry))) :=
      List.sorted_insertionSort newestFirst _
    exact List.Pairwise.sublist
      ((List.take_sublist _ _).trans (List.drop_sublist _ _)) hs

/-- A minimal recipe row used to populate the pagination witness. -/
def mkRec (i : Nat) : Recipe :=
  { id := i, name := "R", category := "Nigerian", cookingTime := 30, prepTime := 10,
    rating := 0, description := "", ingredients := ["x"], instructions := ["y"],
    image := placeholderImage, userId := 1, createdAt := i }

/-- Twelve matching recipes. -/
def dbTwelve : Db :=
  { users := [], recipes := (List.range 12).map (fun k => mkRec (k + 1)), favorites := [] }

/-- The query of the claim: page 2, limit 5, no filters. -/
def qryPage2 : RecipeQuery :=
  { q := none, category := none, minRating := none, maxCookingTime := none,
    page := 2, limit := 5 }

/-- Witness for C8: on 12 matching recipes with page=2 and limit=5 the call
returns exactly 5 items, totalPages 3 and totalRecipes 12. -/
theorem getAllRecipes_pagination_witness :
    (0 < qryPage2.limit)
    ∧ ((getAllRecipes dbTwelve qryPage2).recipes.length = 5
      ∧ (getAllRecipes dbTwelve qryPage2).totalPages = 3
      ∧ (getAllRecipes dbTwelve qryPage2).totalRecipes = 12)
    ∧ ((getAllRecipes dbTwelve qryPage2).totalRecipes
        ≤ qryPage2.limit * (getAllRecipes dbTwelve qryPage2).totalPages) :=
  ⟨by decide, by decide, (getAllRecipes_pagination dbTwelve qryPage2 (by decide)).2.1⟩
